import Mathlib

/-!
# A shallow embedding of the anomaly-detection app (src/app.py)

The app polls a Snowflake table, renders the rows, validates them with a
great_expectations suite, evaluates a numeric-threshold anomaly rule, and
records sent alerts in a uniqueness-constrained `sent_alerts` table.

This file embeds the app's data model and operations in Lean and proves the
behavioural properties stated in the specification.  Tabular results
(pandas DataFrames) are modelled as lists of named columns of tagged scalar
cells; the Streamlit session, `st.cache_data` memo and the `sent_alerts`
table are modelled as explicit state threaded through each script run; the
Presentation sink, the Data Source and the Alert Ledger are observed through
an explicit effect trace.
-/

namespace StApp

/-- A scalar cell of a tabular result: null (None/NaN), a numeric value, or
text.  Numeric values are modelled as integers; the threshold comparisons in
the app only involve integer constants. -/
inductive Cell where
  | null : Cell
  | num (x : Int) : Cell
  | text (s : String) : Cell
deriving DecidableEq

/-- The numeric payload of a cell, `none` for nulls and text. -/
def Cell.numValue : Cell → Option Int
  | .num x => some x
  | _ => none

/-- A named column of a DataFrame.  `dtypeNumeric` records whether pandas
assigned the column a numeric dtype: `select_dtypes(include="number")`
selects exactly those columns. -/
structure Column where
  name : String
  dtypeNumeric : Bool
  cells : List Cell
deriving DecidableEq

/-- A pandas DataFrame: an ordered sequence of named columns.  The intended
invariant (all columns have equal length) is stated as a hypothesis where a
theorem needs it. -/
structure DF where
  cols : List Column
deriving DecidableEq

/-- Number of rows: the common length of the columns (pandas: the length of
the index), read off the first column. -/
def DF.nrows (df : DF) : Nat :=
  match df.cols with
  | [] => 0
  | c :: _ => c.cells.length

/-- `DataFrame.empty`: true when the frame has zero rows or zero columns. -/
def DF.empty (df : DF) : Bool :=
  df.cols.isEmpty || df.nrows == 0

/-- The column names of the frame, in order. -/
def DF.colNames (df : DF) : List String :=
  df.cols.map (·.name)

/-- Column access by name (`df[c]`): the first column with the given name. -/
def DF.findCol (df : DF) (name : String) : Option Column :=
  df.cols.find? fun c => c.name == name

/-- All non-null values of the numeric-dtype columns
(`select_dtypes(include="number")`, flattened).  Null entries are skipped,
matching the default `skipna=True` of the pandas `max` reductions. -/
def DF.numericValues (df : DF) : List Int :=
  (df.cols.filter (·.dtypeNumeric)).flatMap fun c => c.cells.filterMap Cell.numValue

/-- The maximum of a list of values, `none` for the empty list.  This is
the composition `DataFrame.max().max()` on the numeric values: with no
numeric values pandas yields NaN, represented here as `none`. -/
def listMax : List Int → Option Int
  | [] => none
  | x :: xs =>
    match listMax xs with
    | none => some x
    | some m => some (max x m)

/-- `results_df.select_dtypes(include="number").max().max() > 6`
(src/app.py:128): true when the maximum over all numeric columns is strictly
greater than 6; false when there are no numeric values (`NaN > 6` is false
in pandas). -/
def DF.numericMaxExceeds (df : DF) : Bool :=
  match listMax df.numericValues with
  | some m => decide (6 < m)
  | none => false

/-- The anomaly check of the main loop (src/app.py:127-128): an anomaly is
raised iff the frame is nonempty and its numeric maximum strictly exceeds
the threshold 6. -/
def anomalyDetected (df : DF) : Bool :=
  if df.empty then false else df.numericMaxExceeds

/-- A declarative validation rule: a not-null constraint on a target column
(`ExpectColumnValuesToNotBeNull`), or an upper-bound constraint on the
numeric values of a target column. -/
inductive Rule where
  | notNull (column : String)
  | threshold (column : String) (limit : Int)
deriving DecidableEq

/-- The target column of a rule. -/
def Rule.targetColumn : Rule → String
  | .notNull c => c
  | .threshold c _ => c

/-- Modelled from the spec: evaluation of one validation rule by the
Validation Engine (the engine itself is the external great_expectations
library invoked by `validate_data`, src/app.py:40-61, so its semantics are
not under src/).  A rule whose target column does not exist in the frame
fails closed.  On an existing column, a not-null rule fails iff some cell is
null, and a threshold rule fails iff some numeric value exceeds the limit;
both pass vacuously on a column with no cells. -/
def evalRule (df : DF) (r : Rule) : Bool :=
  match df.findCol r.targetColumn with
  | none => false
  | some col =>
    match r with
    | .notNull _ => col.cells.all fun c => c != Cell.null
    | .threshold _ limit =>
      (col.cells.filterMap Cell.numValue).all fun v => decide (v ≤ limit)

/-- The report produced by validation: per-rule outcomes in declaration
order, and the overall success flag. -/
structure ValidationReport where
  results : List (Rule × Bool)
  success : Bool
deriving DecidableEq

/-- Modelled from the spec: `validate(result, rules)` of the Validation
Engine — evaluate every rule in declaration order and report overall success
as the conjunction of the per-rule outcomes. -/
def validate (df : DF) (rules : List Rule) : ValidationReport :=
  let results := rules.map fun r => (r, evalRule df r)
  { results := results, success := results.all (·.2) }

/-- `validate_data` (src/app.py:40-61): build a suite holding the single
expectation `ExpectColumnValuesToNotBeNull(column="EMPLOYEE_ID")` and
validate the frame against it. -/
def validate_data (df : DF) : ValidationReport :=
  validate df [Rule.notNull "EMPLOYEE_ID"]

/-- What `send_alert` shows in the Presentation sink. -/
inductive Display where
  | warning (s : String)
  | info (s : String)
deriving DecidableEq

/-- `is_alert_sent` (src/app.py:64-69): `SELECT 1 FROM sent_alerts WHERE
alert_message = %s` — true iff the ledger holds a record for the message. -/
def is_alert_sent (ledger : List String) (message : String) : Bool :=
  decide (message ∈ ledger)

/-- `log_alert` (src/app.py:72-78): `BEGIN; INSERT INTO sent_alerts ...;
COMMIT`.  The store enforces uniqueness on `alert_message`; a uniqueness
violation raises `IntegrityError`, which the function catches and answers
with `ROLLBACK`, leaving the ledger unchanged. -/
def log_alert (ledger : List String) (message : String) : List String :=
  if message ∈ ledger then ledger else ledger ++ [message]

/-- `send_alert` (src/app.py:81-89), run by a single caller: check the
ledger with `is_alert_sent`; if the message is absent, `log_alert` it and
show the warning; otherwise show the already-sent notice.  Returns the new
ledger and what was displayed. -/
def send_alert (ledger : List String) (message : String) :
    List String × Display :=
  if is_alert_sent ledger message then
    (ledger, .info "Alert already sent for this issue.")
  else
    (log_alert ledger message, .warning ("Alert: " ++ message))

/-- One observable call made by a script run, in program order: calls into
the Presentation sink (`st.title`, `st.write`, `st.success`, `st.dataframe`,
`st.warning`, `st.info`, `st.error`), the Data Source (executing a query
over a fresh connection), the Alert Ledger (`is_alert_sent`'s SELECT and
`log_alert`'s INSERT), and the end-of-cycle `time.sleep`/`st.rerun`. -/
inductive Effect where
  | title (s : String)
  | statusLine (s : String)
  | timeDisplay
  | dsFetch (query : String)
  | successMsg (s : String)
  | rowsLine (n : Nat)
  | table (df : DF)
  | validationFlag (b : Bool)
  | ledgerSelect (message : String)
  | ledgerInsert (message : String)
  | warn (s : String)
  | info (s : String)
  | writeLine (s : String)
  | errorMsg (s : String)
  | sleep (seconds : Nat)
  | rerun
deriving DecidableEq

/-- The outcome the Data Source would produce if actually queried: a frame,
or a raised exception carrying a message. -/
inductive FetchOutcome where
  | ok (df : DF)
  | err (e : String)
deriving DecidableEq

/-- The Streamlit session plus external persistent state carried across
script reruns: the auto-refresh toggle (`st.session_state`), the
`st.cache_data` memo of `run_query`, and the `sent_alerts` table. -/
structure AppState where
  autoRefresh : Bool
  cache : List (String × DF)
  ledger : List String
deriving DecidableEq

/-- The environment of one script run: whether the user clicked the toggle
button during this run, and what the Data Source would return if queried. -/
structure CycleInput where
  toggleClicked : Bool
  fetchOutcome : FetchOutcome
deriving DecidableEq

/-- The fixed query issued every cycle (src/app.py:91). -/
def theQuery : String := "SELECT * FROM \"EMPLOYEE\".\"PUBLIC\".\"EMPLOYEE\" LIMIT 10;"

/-- The constant anomaly alert message (src/app.py:129). -/
def anomalyMsg : String := "One or more numeric columns have values greater than 6."

/-- `run_query` under `@st.cache_data` (src/app.py:25-38): the result is
memoized by the exact argument, here the query string.  On a cache hit the
memoized frame is returned and the Data Source is not contacted; on a miss
the query actually runs against the Data Source (emitting `dsFetch`) and a
successful result is stored (a raised exception is not cached). -/
def runQueryCached (cache : List (String × DF)) (query : String)
    (outcome : FetchOutcome) : List (String × DF) × FetchOutcome × List Effect :=
  match cache.lookup query with
  | some df => (cache, .ok df, [])
  | none =>
    match outcome with
    | .ok df => (cache ++ [(query, df)], .ok df, [.dsFetch query])
    | .err e => (cache, .err e, [.dsFetch query])

/-- `send_alert` (src/app.py:81-89) together with its ledger and
Presentation effects: the SELECT of `is_alert_sent`, then either the INSERT
of `log_alert` plus the warning, or the informational notice. -/
def sendAlertEffects (ledger : List String) (message : String) :
    List String × List Effect :=
  if is_alert_sent ledger message then
    (ledger, [.ledgerSelect message, .info "Alert already sent for this issue."])
  else
    (log_alert ledger message,
     [.ledgerSelect message, .ledgerInsert message, .warn ("Alert: " ++ message)])

/-- The anomaly-detection block of the main loop (src/app.py:126-131):
if the frame is nonempty, compare the numeric maximum against 6 and either
`send_alert` the fixed message or report that no anomalies were detected;
an empty frame does nothing. -/
def anomalyStep (ledger : List String) (df : DF) : List String × List Effect :=
  if df.empty then (ledger, [])
  else if df.numericMaxExceeds then sendAlertEffects ledger anomalyMsg
  else (ledger, [.writeLine "No anomalies detected."])

/-- One full top-to-bottom run of the script (src/app.py:93-139): the title,
the toggle button (flipping the session flag when clicked), the status line,
then either the active branch — current time, the `try` block (cached fetch,
success banner, row count, table, validation flag, anomaly block), the
`except` handler showing a fetch error, and the `sleep`/`rerun` tail — or
the idle branch, which only shows the current time. -/
def scriptRun (s : AppState) (inp : CycleInput) : AppState × List Effect :=
  let ar := if inp.toggleClicked then !s.autoRefresh else s.autoRefresh
  let pre := [Effect.title "Data Anomaly Detection",
              Effect.statusLine (if ar then "Auto-refresh is ON" else "Auto-refresh is OFF")]
  if ar then
    match runQueryCached s.cache theQuery inp.fetchOutcome with
    | (cache1, .err e, fetchFx) =>
      ({ autoRefresh := ar, cache := cache1, ledger := s.ledger },
       pre ++ [Effect.timeDisplay] ++ fetchFx
           ++ [Effect.errorMsg ("Error running query: " ++ e),
               Effect.sleep 10, Effect.rerun])
    | (cache1, .ok df, fetchFx) =>
      let report := validate_data df
      let step := anomalyStep s.ledger df
      ({ autoRefresh := ar, cache := cache1, ledger := step.1 },
       pre ++ [Effect.timeDisplay] ++ fetchFx
           ++ [Effect.successMsg "Query executed successfully!",
               Effect.rowsLine df.nrows, Effect.table df,
               Effect.validationFlag report.success]
           ++ step.2 ++ [Effect.sleep 10, Effect.rerun])
  else
    ({ autoRefresh := ar, cache := s.cache, ledger := s.ledger },
     pre ++ [Effect.timeDisplay])

/-- A whole session: fold script runs over a sequence of cycle inputs,
concatenating the effect traces. -/
def lifetime (s : AppState) : List CycleInput → AppState × List Effect
  | [] => (s, [])
  | inp :: rest =>
    let step := scriptRun s inp
    let rest1 := lifetime step.1 rest
    (rest1.1, step.2 ++ rest1.2)

/-- The number of `st.warning` calls in a trace: how many times an alert was
actually raised (rather than reported as already sent). -/
def warnCount (fx : List Effect) : Nat :=
  fx.countP fun e => match e with | .warn _ => true | _ => false

/-- The progress of one of several concurrent executions of
`send_alert(m)`: `pc = 0` before the `is_alert_sent` check, `pc = 1` after
it (`seen` holds its result), `pc = 2` when finished (`shown` holds what
this caller displayed). -/
structure CallerState where
  pc : Nat
  seen : Bool
  shown : Option Display
deriving DecidableEq

/-- Shared state of a race: the `sent_alerts` ledger and every caller's
local state. -/
structure ConcState where
  ledger : List String
  callers : List CallerState
deriving DecidableEq

/-- A caller that has not run yet. -/
def initCaller : CallerState := { pc := 0, seen := false, shown := none }

/-- `n` callers about to race `send_alert` against a shared ledger. -/
def initConc (ledger : List String) (n : Nat) : ConcState :=
  { ledger := ledger, callers := List.replicate n initCaller }

/-- One atomic step of caller `i` racing through `send_alert m`
(src/app.py:81-89).  At `pc = 0` the caller runs its `is_alert_sent` SELECT
against the current ledger.  At `pc = 1` it acts on what it saw: a caller
that saw the message absent runs `log_alert` — the INSERT commits only if
the message is still absent, otherwise the uniqueness constraint fires and
the transaction rolls back (src/app.py:72-78) — and then shows the warning
either way, because `send_alert` branches on the earlier check, not on the
insert outcome; a caller that saw the message present shows the
informational notice.  Steps addressed to finished or nonexistent callers
do nothing. -/
def concStep (m : String) (s : ConcState) (i : Nat) : ConcState :=
  match s.callers[i]? with
  | none => s
  | some c =>
    if c.pc = 0 then
      let c1 := { c with pc := 1, seen := is_alert_sent s.ledger m }
      { s with callers := s.callers.set i c1 }
    else if c.pc = 1 then
      if c.seen then
        let c1 := { c with pc := 2, shown := some (Display.info "Alert already sent for this issue.") }
        { s with callers := s.callers.set i c1 }
      else
        let c1 := { c with pc := 2, shown := some (Display.warning ("Alert: " ++ m)) }
        { ledger := log_alert s.ledger m, callers := s.callers.set i c1 }
    else s

/-- Run a schedule: an interleaving given as the sequence of caller indices
taking steps. -/
def concRun (m : String) (s : ConcState) : List Nat → ConcState
  | [] => s
  | i :: rest => concRun m (concStep m s i) rest

/-- Connection bookkeeping for one `run_query` call. -/
structure ConnWorld where
  connOpen : Bool
  cursorOpen : Bool
deriving DecidableEq

/-- The fallible steps inside `run_query`'s try block: `cursor.execute` and
`cursor.fetchall` may raise (`some e`); on full success the cursor data
materializes as `resultDF`.  (`conn.cursor()` cannot raise on a freshly
opened connection, and the DataFrame construction from fetched rows is
pure, so neither is a failure point.) -/
structure QueryEnv where
  executeErr : Option String
  fetchallErr : Option String
  resultDF : DF
deriving DecidableEq

/-- Python `try`/`finally`: the finalizer runs on the state whether the
body returned normally or raised, before the result or the exception
propagates to the caller. -/
def tryFinally {σ : Type} (body : σ → σ × FetchOutcome)
    (finalizer : σ → σ) (s : σ) : σ × FetchOutcome :=
  let run := body s
  (finalizer run.1, run.2)

/-- The body of `run_query`'s try block (src/app.py:30-34): create the
cursor, execute the query, fetch all rows, build the DataFrame.  The two
fallible steps raise the exceptions prescribed by the environment. -/
def runQueryBody (env : QueryEnv) (w : ConnWorld) : ConnWorld × FetchOutcome :=
  let w1 := { w with cursorOpen := true }
  match env.executeErr with
  | some e => (w1, .err e)
  | none =>
    match env.fetchallErr with
    | some e => (w1, .err e)
    | none => (w1, .ok env.resultDF)

/-- `run_query`'s resource handling (src/app.py:25-38): open a connection
(`get_snowflake_connection`), run the try block, and — in the `finally`
clause — close the cursor and the connection before the result or the
exception propagates. -/
def run_query_conn (env : QueryEnv) : ConnWorld × FetchOutcome :=
  let opened : ConnWorld := { connOpen := true, cursorOpen := false }
  tryFinally (runQueryBody env)
    (fun w => { w with cursorOpen := false, connOpen := false }) opened

/-! ## Helper lemmas -/

theorem all_map_comp {α β : Type} (l : List α) (f : α → β) (p : β → Bool) :
    (l.map f).all p = l.all fun a => p (f a) := by
  induction l with
  | nil => rfl
  | cons x xs ih => simp [List.all_cons, ih]

theorem listMax_eq_none_iff (l : List Int) : listMax l = none ↔ l = [] := by
  cases l with
  | nil => simp [listMax]
  | cons x xs =>
    cases h : listMax xs <;> simp [listMax, h]

theorem listMax_gt_iff (t : Int) (l : List Int) :
    (match listMax l with | some m => decide (t < m) | none => false) = true ↔
      ∃ v ∈ l, t < v := by
  induction l with
  | nil => simp [listMax]
  | cons x xs ih =>
    cases h : listMax xs with
    | none =>
      have hx : xs = [] := (listMax_eq_none_iff xs).mp h
      subst hx
      simp [listMax]
    | some m =>
      rw [h] at ih
      simp only [decide_eq_true_eq] at ih
      simp only [listMax, h, decide_eq_true_eq, List.mem_cons]
      rw [lt_max_iff, ih]
      constructor
      · rintro (hx | ⟨v, hv, ht⟩)
        · exact ⟨x, Or.inl rfl, hx⟩
        · exact ⟨v, Or.inr hv, ht⟩
      · rintro ⟨v, hv | hv, ht⟩
        · exact Or.inl (hv ▸ ht)
        · exact Or.inr ⟨v, hv, ht⟩

theorem numericMaxExceeds_iff (df : DF) :
    df.numericMaxExceeds = true ↔ ∃ v ∈ df.numericValues, 6 < v := by
  unfold DF.numericMaxExceeds
  exact listMax_gt_iff 6 df.numericValues

theorem numericValues_eq_nil_of_empty (df : DF)
    (hwf : ∀ c ∈ df.cols, c.cells.length = df.nrows)
    (hemp : df.empty = true) : df.numericValues = [] := by
  unfold DF.empty at hemp
  simp only [Bool.or_eq_true, List.isEmpty_iff, beq_iff_eq] at hemp
  unfold DF.numericValues
  rcases hemp with hnil | hzero
  · simp [hnil]
  · rw [List.flatMap_eq_nil_iff]
    intro c hc
    have hcmem : c ∈ df.cols := List.mem_of_mem_filter hc
    have hlen : c.cells.length = 0 := by rw [hwf c hcmem, hzero]
    rw [List.length_eq_zero.mp hlen]
    rfl

theorem anomalyDetected_iff (df : DF)
    (hwf : ∀ c ∈ df.cols, c.cells.length = df.nrows) :
    anomalyDetected df = true ↔ ∃ v ∈ df.numericValues, 6 < v := by
  unfold anomalyDetected
  cases hemp : df.empty with
  | true =>
    rw [numericValues_eq_nil_of_empty df hwf hemp]
    simp
  | false =>
    simp only [Bool.false_eq_true, if_false]
    exact numericMaxExceeds_iff df

/-! ## Concrete frames used by examples, witnesses and counterexamples -/

/-- A one-column frame whose numeric column holds the values 1, 2, 7. -/
def dfVals127 : DF := ⟨[⟨"V", true, [Cell.num 1, Cell.num 2, Cell.num 7]⟩]⟩

/-- A one-column frame whose numeric column holds the values 1, 2, 6. -/
def dfVals126 : DF := ⟨[⟨"V", true, [Cell.num 1, Cell.num 2, Cell.num 6]⟩]⟩

/-- A frame with one numeric column named "A" and zero rows. -/
def dfOneEmptyCol : DF := ⟨[⟨"A", true, []⟩]⟩

/-- A nonempty frame with no numeric column. -/
def dfNoNumeric : DF := ⟨[⟨"T", false, [Cell.text "abc", Cell.num 9]⟩]⟩

/-! ## C4: the anomaly rule -/

/-- **C4.** The anomaly check raises an anomaly (invokes the Alert Ledger)
iff the maximum value across all numeric columns of the fetched QueryResult
is strictly greater than 6: on frames satisfying the equal-column-length
invariant, `anomalyDetected` holds iff some numeric value exceeds 6; the
numeric values 1, 2, 7 raise an anomaly and 1, 2, 6 do not; a frame with no
numeric columns, or with zero rows, never raises one; and the main loop's
anomaly block touches the Alert Ledger exactly when `anomalyDetected`. -/
theorem anomaly_threshold_iff :
    (∀ df : DF, (∀ c ∈ df.cols, c.cells.length = df.nrows) →
        (anomalyDetected df = true ↔ ∃ v ∈ df.numericValues, 6 < v)) ∧
    anomalyDetected dfVals127 = true ∧
    anomalyDetected dfVals126 = false ∧
    (∀ df : DF, df.cols.filter (·.dtypeNumeric) = [] → anomalyDetected df = false) ∧
    (∀ df : DF, df.nrows = 0 → anomalyDetected df = false) ∧
    (∀ (ledger : List String) (df : DF),
        (∃ m, Effect.ledgerSelect m ∈ (anomalyStep ledger df).2) ↔
          anomalyDetected df = true) := by
  refine ⟨anomalyDetected_iff, by decide, by decide, ?_, ?_, ?_⟩
  · intro df hfil
    unfold anomalyDetected
    cases hemp : df.empty with
    | true => simp
    | false =>
      simp only [Bool.false_eq_true, if_false]
      unfold DF.numericMaxExceeds DF.numericValues
      rw [hfil]
      rfl
  · intro df hz
    unfold anomalyDetected DF.empty
    rw [hz]
    simp
  · intro ledger df
    unfold anomalyStep anomalyDetected
    cases hemp : df.empty with
    | true => simp
    | false =>
      cases hmax : df.numericMaxExceeds with
      | true =>
        simp only [Bool.false_eq_true, if_false, if_true, if_pos rfl]
        unfold sendAlertEffects
        cases hsent : is_alert_sent ledger anomalyMsg <;>
          simp [hsent]
      | false =>
        simp

/-- **C4 witness.**  The hypotheses of `anomaly_threshold_iff`'s
conditional conjuncts hold at concrete frames, and the theorem applies
there. -/
theorem anomaly_threshold_iff_witness :
    ((∀ c ∈ dfVals127.cols, c.cells.length = dfVals127.nrows) ∧
      (anomalyDetected dfVals127 = true ↔ ∃ v ∈ dfVals127.numericValues, 6 < v)) ∧
    (dfNoNumeric.cols.filter (·.dtypeNumeric) = [] ∧
      anomalyDetected dfNoNumeric = false) ∧
    (dfOneEmptyCol.nrows = 0 ∧ anomalyDetected dfOneEmptyCol = false) :=
  ⟨⟨by decide, anomaly_threshold_iff.1 dfVals127 (by decide)⟩,
   ⟨by decide, anomaly_threshold_iff.2.2.2.1 dfNoNumeric (by decide)⟩,
   ⟨by decide, anomaly_threshold_iff.2.2.2.2.1 dfOneEmptyCol (by decide)⟩⟩

/-! ## C5: validation on zero-row frames -/

/-- **C5 counterexample.**  The claim "for every QueryResult with zero rows
and every rule set, validate returns success=true" is false as stated: a
zero-row frame whose only column is named "A", validated against the single
not-null rule targeting the nonexistent column "B", yields success=false,
because a rule whose target column is missing fails closed (the invariant
the spec itself states for rules). -/
theorem validate_empty_rules_counterexample :
    dfOneEmptyCol.nrows = 0 ∧
    (validate dfOneEmptyCol [Rule.notNull "B"]).success = false := by decide

/-- **C5 (amended).**  For every QueryResult with zero rows and every rule
set all of whose rules target columns that exist in the QueryResult,
validate returns success=true: not-null and threshold rules pass vacuously
when there are no rows to violate them. -/
theorem validate_empty_success (df : DF) (rules : List Rule)
    (hrows : ∀ c ∈ df.cols, c.cells = [])
    (hcols : ∀ r ∈ rules, r.targetColumn ∈ df.colNames) :
    (validate df rules).success = true := by
  simp only [validate]
  rw [all_map_comp, List.all_eq_true]
  intro r hr
  obtain ⟨col, hcol, hname⟩ := List.mem_map.mp (hcols r hr)
  have hsome : (df.cols.find? fun c => c.name == r.targetColumn).isSome := by
    rw [List.find?_isSome]
    exact ⟨col, hcol, by simp [hname]⟩
  obtain ⟨col0, hfind⟩ := Option.isSome_iff_exists.mp hsome
  have hmem0 : col0 ∈ df.cols := List.mem_of_find?_eq_some hfind
  have hcells : col0.cells = [] := hrows col0 hmem0
  unfold evalRule DF.findCol
  rw [hfind]
  cases r <;> simp [hcells]

/-- **C5 witness.**  The amended statement applies to a concrete zero-row
frame and a rule set of both kinds over its existing column. -/
theorem validate_empty_success_witness :
    (∀ c ∈ dfOneEmptyCol.cols, c.cells = []) ∧
    (∀ r ∈ [Rule.notNull "A", Rule.threshold "A" 5],
        r.targetColumn ∈ dfOneEmptyCol.colNames) ∧
    (validate dfOneEmptyCol [Rule.notNull "A", Rule.threshold "A" 5]).success = true :=
  ⟨by decide, by decide,
   validate_empty_success dfOneEmptyCol [Rule.notNull "A", Rule.threshold "A" 5]
     (by decide) (by decide)⟩

/-! ## C6: rules over missing columns fail closed -/

/-- **C6.**  For every QueryResult and every rule whose target column does
not exist in it, validate reports that rule as failed and overall
success=false — the rule fails closed rather than raising. -/
theorem validate_missing_column_fails (df : DF) (rules : List Rule) (r : Rule)
    (hr : r ∈ rules) (hmiss : r.targetColumn ∉ df.colNames) :
    (r, false) ∈ (validate df rules).results ∧
    (validate df rules).success = false := by
  have heval : evalRule df r = false := by
    have hnone : (df.cols.find? fun c => c.name == r.targetColumn) = none := by
      rw [List.find?_eq_none]
      intro c hc
      simp only [beq_iff_eq]
      intro hname
      exact hmiss (hname ▸ List.mem_map_of_mem (·.name) hc)
    unfold evalRule DF.findCol
    rw [hnone]
  constructor
  · simp only [validate]
    exact List.mem_map.mpr ⟨r, hr, by rw [heval]⟩
  · apply Bool.eq_false_iff.mpr
    intro hall
    simp only [validate] at hall
    rw [all_map_comp, List.all_eq_true] at hall
    have := hall r hr
    rw [heval] at this
    exact Bool.false_ne_true this

/-- **C6 witness.**  The failure applies at a concrete frame and rule. -/
theorem validate_missing_column_fails_witness :
    Rule.notNull "B" ∈ [Rule.notNull "B"] ∧
    (Rule.notNull "B").targetColumn ∉ dfOneEmptyCol.colNames ∧
    ((Rule.notNull "B", false) ∈ (validate dfOneEmptyCol [Rule.notNull "B"]).results ∧
      (validate dfOneEmptyCol [Rule.notNull "B"]).success = false) :=
  ⟨by decide, by decide,
   validate_missing_column_fails dfOneEmptyCol [Rule.notNull "B"] (Rule.notNull "B")
     (by decide) (by decide)⟩

/-! ## C1: send-once semantics of the alert ledger -/

/-- **C1.**  Calling `send_alert` twice in sequence with the same message
(not previously in the ledger) displays the alert warning the first time
and the already-sent notice the second, and afterwards the ledger holds
exactly one record for the message. -/
theorem send_alert_idempotent (L : List String) (m : String) (h : m ∉ L) :
    (send_alert L m).2 = Display.warning ("Alert: " ++ m) ∧
    (send_alert (send_alert L m).1 m).2 = Display.info "Alert already sent for this issue." ∧
    (send_alert (send_alert L m).1 m).1.count m = 1 := by
  have h1 : is_alert_sent L m = false := by simp [is_alert_sent, h]
  have hL1 : (send_alert L m).1 = L ++ [m] := by
    simp [send_alert, h1, log_alert, h]
  have h2 : is_alert_sent (L ++ [m]) m = true := by simp [is_alert_sent]
  refine ⟨by simp [send_alert, h1], ?_, ?_⟩
  · rw [hL1]
    simp [send_alert, h2]
  · rw [hL1]
    simp only [send_alert, h2, if_true, if_pos rfl]
    rw [List.count_append]
    rw [List.count_eq_zero.mpr h]
    simp

/-- **C1 witness.**  The double-call behaviour at a concrete message and
the empty ledger. -/
theorem send_alert_idempotent_witness :
    "x" ∉ ([] : List String) ∧
    ((send_alert [] "x").2 = Display.warning ("Alert: " ++ "x") ∧
     (send_alert (send_alert [] "x").1 "x").2 = Display.info "Alert already sent for this issue." ∧
     (send_alert (send_alert [] "x").1 "x").1.count "x" = 1) :=
  ⟨by decide, send_alert_idempotent [] "x" (by decide)⟩

/-! ## C7: connection release on every exit path -/

/-- **C7.**  Every `run_query` call that opened a connection closes it (and
its cursor) on every exit path: the `finally` clause runs whether the try
block succeeded, returned an empty frame, or raised during query execution
or row fetching; the call returns the built frame exactly when no step
raised, and propagates the first raised error otherwise. -/
theorem run_query_closes_connection :
    (∀ env : QueryEnv, (run_query_conn env).1.connOpen = false) ∧
    (∀ env : QueryEnv, (run_query_conn env).1.cursorOpen = false) ∧
    (∀ df : DF, (run_query_conn ⟨none, none, df⟩).2 = .ok df) ∧
    (∀ (e : String) (fe : Option String) (df : DF),
        (run_query_conn ⟨some e, fe, df⟩).2 = .err e) ∧
    (∀ (e : String) (df : DF), (run_query_conn ⟨none, some e, df⟩).2 = .err e) := by
  refine ⟨fun env => rfl, fun env => rfl, fun df => rfl, fun e fe df => rfl,
    fun e df => rfl⟩

/-! ## C2: the refresh loop serves the memoized frame forever -/

/-- **C2 (violated by the code).**  The claim requires every active cycle's
fetch to re-invoke the Data Source.  In the code, `run_query` is memoized by
`@st.cache_data` on the query string alone and the loop issues the fixed
`theQuery` every cycle, so only the first active cycle contacts the Data
Source: here the second cycle, whose Data Source would return `dfVals127`,
emits no fetch and still displays the first cycle's `dfVals126`. -/
theorem run_query_cache_staleness :
    Effect.dsFetch theQuery ∈ (scriptRun ⟨true, [], []⟩ ⟨false, .ok dfVals126⟩).2 ∧
    Effect.dsFetch theQuery ∉
      (scriptRun (scriptRun ⟨true, [], []⟩ ⟨false, .ok dfVals126⟩).1
        ⟨false, .ok dfVals127⟩).2 ∧
    Effect.table dfVals126 ∈
      (scriptRun (scriptRun ⟨true, [], []⟩ ⟨false, .ok dfVals126⟩).1
        ⟨false, .ok dfVals127⟩).2 ∧
    Effect.table dfVals127 ∉
      (scriptRun (scriptRun ⟨true, [], []⟩ ⟨false, .ok dfVals126⟩).1
        ⟨false, .ok dfVals127⟩).2 ∧
    (scriptRun (scriptRun ⟨true, [], []⟩ ⟨false, .ok dfVals126⟩).1
        ⟨false, .ok dfVals127⟩).1.autoRefresh = true := by
  decide

/-! ## C8: a failed fetch aborts only its own cycle -/

/-- **C8.**  When the Data Source fetch fails during an active cycle (a
cache miss whose underlying query raises), the error is displayed in that
same cycle, validation, anomaly check and alerting are all skipped, and the
cycle still reaches the suspend (`sleep 10`) and repeat (`rerun`) steps with
auto-refresh still on and the ledger untouched. -/
theorem fetch_failure_recovery (s : AppState) (inp : CycleInput) (e : String)
    (har : (if inp.toggleClicked then !s.autoRefresh else s.autoRefresh) = true)
    (hmiss : s.cache.lookup theQuery = none)
    (hfail : inp.fetchOutcome = .err e) :
    Effect.errorMsg ("Error running query: " ++ e) ∈ (scriptRun s inp).2 ∧
    (∀ b, Effect.validationFlag b ∉ (scriptRun s inp).2) ∧
    (∀ m, Effect.ledgerSelect m ∉ (scriptRun s inp).2) ∧
    (∀ m, Effect.ledgerInsert m ∉ (scriptRun s inp).2) ∧
    (∀ m, Effect.warn m ∉ (scriptRun s inp).2) ∧
    Effect.sleep 10 ∈ (scriptRun s inp).2 ∧
    Effect.rerun ∈ (scriptRun s inp).2 ∧
    (scriptRun s inp).1.autoRefresh = true ∧
    (scriptRun s inp).1.ledger = s.ledger := by
  have hrun : scriptRun s inp =
      ({ autoRefresh := true, cache := s.cache, ledger := s.ledger },
       [Effect.title "Data Anomaly Detection", Effect.statusLine "Auto-refresh is ON",
        Effect.timeDisplay, Effect.dsFetch theQuery,
        Effect.errorMsg ("Error running query: " ++ e),
        Effect.sleep 10, Effect.rerun]) := by
    simp only [scriptRun, runQueryCached, har, hmiss, hfail]
    rfl
  rw [hrun]
  refine ⟨by simp, ?_, ?_, ?_, ?_, by simp, by simp, rfl, rfl⟩ <;>
    intro x <;> simp

/-- **C8 witness.**  The recovery behaviour at a concrete failing cycle. -/
theorem fetch_failure_recovery_witness :
    ((if (false : Bool) then !true else true) = true) ∧
    (([] : List (String × DF)).lookup theQuery = none) ∧
    ((CycleInput.mk false (.err "boom")).fetchOutcome = .err "boom") ∧
    (Effect.errorMsg ("Error running query: " ++ "boom") ∈
        (scriptRun ⟨true, [], []⟩ ⟨false, .err "boom"⟩).2 ∧
      Effect.rerun ∈ (scriptRun ⟨true, [], []⟩ ⟨false, .err "boom"⟩).2) :=
  ⟨by decide, rfl, rfl,
   (fetch_failure_recovery ⟨true, [], []⟩ ⟨false, .err "boom"⟩ "boom"
      (by decide) rfl rfl).1,
   (fetch_failure_recovery ⟨true, [], []⟩ ⟨false, .err "boom"⟩ "boom"
      (by decide) rfl rfl).2.2.2.2.2.2.1⟩

/-! ## C9: the idle state performs no work -/

/-- **C9.**  Whenever the observed refresh state is idle, a script run shows
the title, the OFF status line and the current time, and nothing else: it
never contacts the Data Source or the Alert Ledger, performs no validation,
and leaves the cache and the ledger untouched. -/
theorem idle_no_side_effects (s : AppState) (inp : CycleInput)
    (har : (if inp.toggleClicked then !s.autoRefresh else s.autoRefresh) = false) :
    (scriptRun s inp).2 = [Effect.title "Data Anomaly Detection",
                           Effect.statusLine "Auto-refresh is OFF",
                           Effect.timeDisplay] ∧
    (∀ q, Effect.dsFetch q ∉ (scriptRun s inp).2) ∧
    (∀ m, Effect.ledgerSelect m ∉ (scriptRun s inp).2) ∧
    (∀ m, Effect.ledgerInsert m ∉ (scriptRun s inp).2) ∧
    (∀ b, Effect.validationFlag b ∉ (scriptRun s inp).2) ∧
    (scriptRun s inp).1.cache = s.cache ∧
    (scriptRun s inp).1.ledger = s.ledger := by
  have hrun : scriptRun s inp =
      ({ autoRefresh := false, cache := s.cache, ledger := s.ledger },
       [Effect.title "Data Anomaly Detection",
        Effect.statusLine "Auto-refresh is OFF", Effect.timeDisplay]) := by
    simp only [scriptRun, har]
    rfl
  rw [hrun]
  refine ⟨rfl, ?_, ?_, ?_, ?_, rfl, rfl⟩ <;> intro x <;> simp

/-- **C9 witness.**  The idle behaviour at a concrete state and input. -/
theorem idle_no_side_effects_witness :
    ((if (false : Bool) then !false else false) = false) ∧
    (scriptRun ⟨false, [], []⟩ ⟨false, .ok dfVals126⟩).2 =
      [Effect.title "Data Anomaly Detection",
       Effect.statusLine "Auto-refresh is OFF", Effect.timeDisplay] :=
  ⟨by decide,
   (idle_no_side_effects ⟨false, [], []⟩ ⟨false, .ok dfVals126⟩ (by decide)).1⟩

/-! ## C10: the constant alert message keeps the ledger a singleton -/

theorem anomalyStep_cases (ledger : List String) (df : DF) :
    ((anomalyStep ledger df).1 = ledger ∧ warnCount (anomalyStep ledger df).2 = 0) ∨
    (anomalyMsg ∉ ledger ∧ (anomalyStep ledger df).1 = ledger ++ [anomalyMsg] ∧
      warnCount (anomalyStep ledger df).2 = 1) := by
  cases hemp : df.empty with
  | true => left; simp [anomalyStep, hemp, warnCount]
  | false =>
    cases hmax : df.numericMaxExceeds with
    | false => left; simp [anomalyStep, hemp, hmax, warnCount]
    | true =>
      cases hsent : is_alert_sent ledger anomalyMsg with
      | true =>
        left
        simp [anomalyStep, hemp, hmax, sendAlertEffects, hsent, warnCount]
      | false =>
        right
        have hmem : anomalyMsg ∉ ledger := by
          simpa [is_alert_sent] using hsent
        refine ⟨hmem, ?_, ?_⟩ <;>
          simp [anomalyStep, hemp, hmax, sendAlertEffects, hsent, log_alert,
            hmem, warnCount]

theorem scriptRun_ledger_warn (s : AppState) (inp : CycleInput) :
    ((scriptRun s inp).1.ledger = s.ledger ∧ warnCount (scriptRun s inp).2 = 0) ∨
    (anomalyMsg ∉ s.ledger ∧
      (scriptRun s inp).1.ledger = s.ledger ++ [anomalyMsg] ∧
      warnCount (scriptRun s inp).2 = 1) := by
  cases har : (if inp.toggleClicked then !s.autoRefresh else s.autoRefresh) with
  | false =>
    left
    simp [scriptRun, har, warnCount]
  | true =>
    cases hc : s.cache.lookup theQuery with
    | some df =>
      rcases anomalyStep_cases s.ledger df with ⟨hl, hw⟩ | ⟨hmem, hl, hw⟩
      · left
        refine ⟨?_, ?_⟩ <;> simp only [scriptRun, runQueryCached, har, hc]
        · exact hl
        · simpa [warnCount, List.countP_append] using hw
      · right
        refine ⟨hmem, ?_, ?_⟩ <;> simp only [scriptRun, runQueryCached, har, hc]
        · exact hl
        · simpa [warnCount, List.countP_append] using hw
    | none =>
      cases ho : inp.fetchOutcome with
      | err e =>
        left
        simp [scriptRun, runQueryCached, har, hc, ho, warnCount]
      | ok df =>
        rcases anomalyStep_cases s.ledger df with ⟨hl, hw⟩ | ⟨hmem, hl, hw⟩
        · left
          refine ⟨?_, ?_⟩ <;> simp only [scriptRun, runQueryCached, har, hc, ho]
          · exact hl
          · simpa [warnCount, List.countP_append] using hw
        · right
          refine ⟨hmem, ?_, ?_⟩ <;> simp only [scriptRun, runQueryCached, har, hc, ho]
          · exact hl
          · simpa [warnCount, List.countP_append] using hw

theorem lifetime_ledger_bound (inputs : List CycleInput) (s : AppState)
    (h : s.ledger = [] ∨ s.ledger = [anomalyMsg]) :
    ((lifetime s inputs).1.ledger = [] ∨
      (lifetime s inputs).1.ledger = [anomalyMsg]) ∧
    warnCount (lifetime s inputs).2 ≤ (if s.ledger = [] then 1 else 0) := by
  induction inputs generalizing s with
  | nil =>
    refine ⟨h, ?_⟩
    simp [lifetime, warnCount]
  | cons inp rest ih =>
    rcases scriptRun_ledger_warn s inp with ⟨hl, hw⟩ | ⟨hmem, hl, hw⟩
    · have hnext := ih (scriptRun s inp).1 (by rw [hl]; exact h)
      simp only [lifetime]
      refine ⟨hnext.1, ?_⟩
      rw [warnCount, List.countP_append, ← warnCount, ← warnCount, hw]
      simpa [hl] using hnext.2
    · have hzero : s.ledger = [] := by
        rcases h with h0 | h1
        · exact h0
        · exact absurd (by rw [h1]; exact List.mem_singleton_self _) hmem
      have hl1 : (scriptRun s inp).1.ledger = [anomalyMsg] := by
        rw [hl, hzero]; rfl
      have hnext := ih (scriptRun s inp).1 (Or.inr hl1)
      simp only [lifetime]
      refine ⟨hnext.1, ?_⟩
      rw [warnCount, List.countP_append, ← warnCount, ← warnCount, hw, hzero]
      have : warnCount (lifetime (scriptRun s inp).1 rest).2 = 0 := by
        have := hnext.2
        rw [hl1] at this
        simpa using this
      simp [this]

/-- **C10.**  Because the anomaly alert text is one fixed constant string,
the ledger — starting empty — only ever holds zero or one record over the
whole lifetime (any sequence of cycles), at most one alert warning is ever
displayed, and once the record exists every further cycle displays no
warning; a cycle whose frame does trigger the anomaly check then leaves the
ledger unchanged and reports the already-sent notice instead. -/
theorem alert_ledger_at_most_one (s : AppState) (inputs : List CycleInput)
    (h : s.ledger = []) :
    ((lifetime s inputs).1.ledger = [] ∨
      (lifetime s inputs).1.ledger = [anomalyMsg]) ∧
    warnCount (lifetime s inputs).2 ≤ 1 ∧
    (∀ (s' : AppState) (inp : CycleInput), anomalyMsg ∈ s'.ledger →
        warnCount (scriptRun s' inp).2 = 0) ∧
    (∀ (ledger : List String) (df : DF), anomalyMsg ∈ ledger →
        anomalyDetected df = true →
        (anomalyStep ledger df).1 = ledger ∧
        Effect.info "Alert already sent for this issue." ∈
          (anomalyStep ledger df).2) := by
  have hall := lifetime_ledger_bound inputs s (Or.inl h)
  refine ⟨hall.1, ?_, ?_, ?_⟩
  · have := hall.2
    rw [h] at this
    simpa using this
  · intro s' inp hmem
    rcases scriptRun_ledger_warn s' inp with ⟨_, hw⟩ | ⟨hno, _, _⟩
    · exact hw
    · exact absurd hmem hno
  · intro ledger df hmem hdet
    have hemp : df.empty = false := by
      unfold anomalyDetected at hdet
      cases he : df.empty with
      | true => rw [he] at hdet; simp at hdet
      | false => rfl
    have hmax : df.numericMaxExceeds = true := by
      unfold anomalyDetected at hdet
      rw [hemp] at hdet
      simpa using hdet
    have hsent : is_alert_sent ledger anomalyMsg = true := by
      simp [is_alert_sent, hmem]
    constructor <;>
      simp [anomalyStep, hemp, hmax, sendAlertEffects, hsent]

/-- **C10 witness.**  The lifetime bound and the already-sent behaviour at
concrete inputs: a session of two anomalous cycles, and an anomaly check
against a ledger already holding the record. -/
theorem alert_ledger_at_most_one_witness :
    (AppState.mk false [] []).ledger = [] ∧
    warnCount (lifetime ⟨false, [], []⟩
        [⟨true, .ok dfVals127⟩, ⟨false, .ok dfVals127⟩]).2 ≤ 1 ∧
    (anomalyMsg ∈ [anomalyMsg] ∧ anomalyDetected dfVals127 = true ∧
      (anomalyStep [anomalyMsg] dfVals127).1 = [anomalyMsg] ∧
      Effect.info "Alert already sent for this issue." ∈
        (anomalyStep [anomalyMsg] dfVals127).2) :=
  ⟨rfl,
   (alert_ledger_at_most_one ⟨false, [], []⟩
      [⟨true, .ok dfVals127⟩, ⟨false, .ok dfVals127⟩] rfl).2.1,
   by decide, by decide,
   (alert_ledger_at_most_one ⟨false, [], []⟩ [] rfl).2.2.2
      [anomalyMsg] dfVals127 (List.mem_singleton_self _) (by decide)⟩

/-! ## C3: racing senders -/

theorem log_alert_count_le_one (ledger : List String) (m : String)
    (h : ledger.count m ≤ 1) : (log_alert ledger m).count m ≤ 1 := by
  unfold log_alert
  split
  · exact h
  · rename_i hnot
    rw [List.count_append, List.count_eq_zero.mpr hnot]
    simp

theorem mem_log_alert_self (ledger : List String) (m : String) :
    m ∈ log_alert ledger m := by
  unfold log_alert
  split
  · assumption
  · simp

theorem mem_log_alert_of_mem (ledger : List String) (m x : String)
    (h : x ∈ ledger) : x ∈ log_alert ledger m := by
  unfold log_alert
  split
  · exact h
  · exact List.mem_append_left _ h

/-- The race invariant: the ledger holds at most one record for `m`, every
finished caller witnessed `m` in the ledger at some point (so it is there
now — records are never deleted), and every caller whose check reported the
message as already sent is right that the ledger holds it. -/
def ConcInv (m : String) (s : ConcState) : Prop :=
  s.ledger.count m ≤ 1 ∧
  ∀ c ∈ s.callers, (c.pc = 2 → m ∈ s.ledger) ∧ (c.seen = true → m ∈ s.ledger)

theorem concStep_inv (m : String) (s : ConcState) (i : Nat)
    (h : ConcInv m s) : ConcInv m (concStep m s i) := by
  obtain ⟨hcount, hcallers⟩ := h
  unfold concStep
  cases hget : s.callers[i]? with
  | none => exact ⟨hcount, hcallers⟩
  | some c =>
    have hcmem : c ∈ s.callers := List.getElem?_mem hget
    by_cases h0 : c.pc = 0
    · simp only [h0, if_true, if_pos rfl]
      refine ⟨hcount, ?_⟩
      intro x hx
      rcases List.mem_or_eq_of_mem_set hx with hold | hnew
      · exact hcallers x hold
      · subst hnew
        refine ⟨fun h2 => ?_, fun hs => ?_⟩
        · simp at h2
        · exact of_decide_eq_true hs
    · simp only [h0, if_false]
      by_cases h1 : c.pc = 1
      · simp only [h1, if_true, if_pos rfl]
        cases hseen : c.seen with
        | true =>
          simp only [if_true, if_pos rfl]
          refine ⟨hcount, ?_⟩
          intro x hx
          rcases List.mem_or_eq_of_mem_set hx with hold | hnew
          · exact hcallers x hold
          · subst hnew
            have hmem : m ∈ s.ledger := (hcallers c hcmem).2 hseen
            exact ⟨fun _ => hmem, fun _ => hmem⟩
        | false =>
          simp only [Bool.false_eq_true, if_false]
          refine ⟨log_alert_count_le_one s.ledger m hcount, ?_⟩
          intro x hx
          rcases List.mem_or_eq_of_mem_set hx with hold | hnew
          · refine ⟨fun h2 => ?_, fun hs => ?_⟩
            · exact mem_log_alert_of_mem _ _ _ ((hcallers x hold).1 h2)
            · exact mem_log_alert_of_mem _ _ _ ((hcallers x hold).2 hs)
          · subst hnew
            refine ⟨fun _ => mem_log_alert_self _ _, fun hs => ?_⟩
            simp at hs
      · simp only [h1, if_false]
        exact ⟨hcount, hcallers⟩

theorem concRun_inv (m : String) (sched : List Nat) (s : ConcState)
    (h : ConcInv m s) : ConcInv m (concRun m s sched) := by
  induction sched generalizing s with
  | nil => exact h
  | cons i rest ih => exact ih _ (concStep_inv m s i h)

theorem concStep_callers_length (m : String) (s : ConcState) (i : Nat) :
    (concStep m s i).callers.length = s.callers.length := by
  unfold concStep
  cases s.callers[i]? with
  | none => rfl
  | some c =>
    by_cases h0 : c.pc = 0
    · simp [h0, List.length_set]
    · by_cases h1 : c.pc = 1
      · cases hseen : c.seen <;> simp [h0, h1, hseen, List.length_set]
      · simp [h0, h1]

theorem concRun_callers_length (m : String) (sched : List Nat) (s : ConcState) :
    (concRun m s sched).callers.length = s.callers.length := by
  induction sched generalizing s with
  | nil => rfl
  | cons i rest ih =>
    rw [concRun]
    rw [ih, concStep_callers_length]

/-- **C3 counterexample.**  The claim that under a race on the same message
exactly one caller observes the warning and the other the already-sent
notice is false: in the interleaving where both callers run their
`is_alert_sent` check before either acts, both display the alert warning
and neither the notice — even though the ledger does end up with exactly
one record.  `send_alert` branches on its earlier check, and `log_alert`
swallows the loser's `IntegrityError`. -/
theorem send_alert_race_counterexample :
    ((concRun "x" (initConc [] 2) [0, 1, 0, 1]).callers.map (·.shown)).count
        (some (Display.warning "Alert: x")) = 2 ∧
    ((concRun "x" (initConc [] 2) [0, 1, 0, 1]).callers.map (·.shown)).count
        (some (Display.info "Alert already sent for this issue.")) = 0 ∧
    (concRun "x" (initConc [] 2) [0, 1, 0, 1]).ledger = ["x"] ∧
    ¬(((concRun "x" (initConc [] 2) [0, 1, 0, 1]).callers.map (·.shown)).count
          (some (Display.warning "Alert: x")) = 1 ∧
      ((concRun "x" (initConc [] 2) [0, 1, 0, 1]).callers.map (·.shown)).count
          (some (Display.info "Alert already sent for this issue.")) = 1) := by
  decide

/-- **C3 (amended).**  For every message not yet in the ledger and every
interleaving of `n ≥ 1` concurrent callers of `send_alert(m)`, the
uniqueness-constrained insert commits at most once — the ledger never holds
more than one record for `m`, and exactly one once every caller has
finished.  What the claim wrongly asserted about displays does not hold:
which callers show the warning is decided by their earlier `is_alert_sent`
check, not by winning the insert (see the counterexample), so several
callers can show the warning and none the already-sent notice. -/
theorem send_alert_race_ledger_unique (m : String) (L : List String) (n : Nat)
    (sched : List Nat) (hm : m ∉ L) (hn : 0 < n) :
    (concRun m (initConc L n) sched).ledger.count m ≤ 1 ∧
    ((∀ c ∈ (concRun m (initConc L n) sched).callers, c.pc = 2) →
      (concRun m (initConc L n) sched).ledger.count m = 1) := by
  have hinit : ConcInv m (initConc L n) := by
    refine ⟨?_, ?_⟩
    · simp only [initConc]
      rw [List.count_eq_zero.mpr hm]
      omega
    · intro c hc
      have hrep : c = initCaller := List.eq_of_mem_replicate hc
      subst hrep
      exact ⟨fun h2 => by simp [initCaller] at h2,
             fun hs => by simp [initCaller] at hs⟩
  have hinv := concRun_inv m sched _ hinit
  refine ⟨hinv.1, ?_⟩
  intro hdone
  have hlen : (concRun m (initConc L n) sched).callers.length = n := by
    rw [concRun_callers_length]
    simp [initConc]
  have hne : (concRun m (initConc L n) sched).callers ≠ [] := by
    intro hnil
    rw [hnil] at hlen
    simp at hlen
    omega
  obtain ⟨c, hc⟩ := List.exists_mem_of_ne_nil _ hne
  have hmem : m ∈ (concRun m (initConc L n) sched).ledger :=
    (hinv.2 c hc).1 (hdone c hc)
  have hpos : 0 < (concRun m (initConc L n) sched).ledger.count m :=
    List.count_pos_iff.mpr hmem
  have hle := hinv.1
  omega

/-- **C3 witness.**  The amended statement at a concrete race: one caller
running to completion from the empty ledger. -/
theorem send_alert_race_ledger_unique_witness :
    "x" ∉ ([] : List String) ∧ 0 < 1 ∧
    (∀ c ∈ (concRun "x" (initConc [] 1) [0, 0]).callers, c.pc = 2) ∧
    (concRun "x" (initConc [] 1) [0, 0]).ledger.count "x" = 1 :=
  ⟨by decide, by decide, by decide,
   (send_alert_race_ledger_unique "x" [] 1 [0, 0] (by decide) (by decide)).2
     (by decide)⟩

end StApp
